import Mathlib

/-!
Verification of the PicoDitDah firmware core (CW generator and WinKeyer
protocol decoder) against its natural-language specification.

The embedding follows `src/cw_generator.cpp` (the envelope-shaping variant
of `CWGenerator`, the one with `output_buffer` and `cw_keyshape`) and
`src/winkeyer_parser.cpp`.  Machine integers of the firmware
(`uint32_t` counters and sizes; see the `uint32_t inchar_index_start` and
`uint32_t pos` locals of `get_audio_buffer`) are modelled as `Nat`, with the
32-bit wrap-around of unsigned subtraction made explicit through `u32sub`
exactly where the C code can underflow.  Trigonometric table contents
(`sin`-filled tone table, Blackman envelope) are abstract parameters
`ℕ → ℤ` and `ℕ → ℚ`: the claims under verification are about which table
entries are combined, not about the transcendental values.  The C statement
`output_buffer[i] *= cw_keyshape[curpos]` (an `int16_t` scaled by a `float`
and converted back, truncating toward zero) is modelled by `c_scale`.
-/

/-- CW_CHARACTERS enumeration of cw_generator.h (used by the queue). -/
inductive CW_CHARACTERS where
  | CHAR_PAUSE : CW_CHARACTERS
  | CHAR_DIT : CW_CHARACTERS
  | CHAR_DAH : CW_CHARACTERS
deriving DecidableEq, Repr

/-- Keyer state machine states of cw_generator.h. -/
inductive CW_STATES where
  | STATE_INIT : CW_STATES
  | STATE_INIT_PAUSE : CW_STATES
  | STATE_IDLE : CW_STATES
  | STATE_DIT : CW_STATES
  | STATE_DAH : CW_STATES
  | STATE_DIT_PAUSE : CW_STATES
  | STATE_DAH_PAUSE : CW_STATES
deriving DecidableEq, Repr

open CW_CHARACTERS CW_STATES

/-- DIT_UNITS of cw_generator.cpp: time units of a DIT. -/
def DIT_UNITS : ℕ := 1

/-- DAH_UNITS of cw_generator.cpp: time units of a DAH. -/
def DAH_UNITS : ℕ := 3

/-- INTRA_CHAR_PAUSE_UNITS of cw_generator.cpp. -/
def INTRA_CHAR_PAUSE_UNITS : ℕ := 1

/-- INTER_CHAR_PAUSE_UNITS of cw_generator.cpp. -/
def INTER_CHAR_PAUSE_UNITS : ℕ := 3

/-- WPM_MIN of cw_generator.cpp. -/
def WPM_MIN : ℕ := 10

/-- WPM_MAX of cw_generator.cpp. -/
def WPM_MAX : ℕ := 99

/-- Modulus of the firmware's 32-bit unsigned arithmetic. -/
def u32mod : ℕ := 4294967296

/-- Reduction of a `Nat` to its `uint32_t` value. -/
def u32 (n : ℕ) : ℕ := n % u32mod

/-- `uint32_t` subtraction `a - b` (for representable `a`, `b`),
made total over `Nat` with the wrap-around explicit. -/
def u32sub (a b : ℕ) : ℕ := (a + u32mod - b) % u32mod

/-- Mutable state of class `CWGenerator` (cw_generator.h is not in the
sources; field names follow their uses in cw_generator.cpp, and the numeric
fields are the firmware's `uint32_t` counters modelled as `Nat`).
`audio_minfreq` and `audio_maxfreq` are the class's static bounds of the
device-valid audio range; their numeric values live in the missing header,
so they are carried as symbolic fields.  Modelled from the spec:
"frequency (Hz, clamped to device-valid audio range)". -/
structure CWGenerator where
  curstate : CW_STATES
  nextstate : CW_STATES
  cw_sample_rate : ℕ
  cw_sample_buffer_size : ℕ
  cw_frequency : ℕ
  cw_wpm : ℕ
  cw_volume : ℕ
  cw_risetime : ℕ
  cw_risetime_samples : ℕ
  signal_buffer_period : ℕ
  signal_dit_length_index : ℕ
  inchar_index : ℕ
  inchar_endindex : ℕ
  audio_minfreq : ℕ
  audio_maxfreq : ℕ
  cw_character_queue : List CW_CHARACTERS
deriving DecidableEq, Repr

/-- `ceil(cw_sample_rate / (float)(cw_frequency))` of init_buffers
(cw_generator.cpp line 540), the tone period in samples; exact ceiling
division (the float quotient is exact enough at audio magnitudes). -/
def signal_buffer_period_calc (sample_rate freq : ℕ) : ℕ :=
  (sample_rate + freq - 1) / freq

/-- Dit length computation of init_buffers (cw_generator.cpp lines
559-560): `(60 / (50 * wpm)) * sample_rate` computed in `float` and
truncated by the assignment to the integer `signal_dit_length_index`
(idealized here as exact rational arithmetic followed by the same
truncation, i.e. Nat division), then rounded up to a whole multiple of the
tone period with `ceil`. -/
def signal_dit_length_calc (wpm sample_rate period : ℕ) : ℕ :=
  let d := 60 * sample_rate / (50 * wpm)
  ((d + period - 1) / period) * period

/-- `ceil(cw_risetime * cw_sample_rate / 1000) + 1` of init_buffers
(cw_generator.cpp line 543). -/
def cw_risetime_samples_calc (risetime sample_rate : ℕ) : ℕ :=
  (risetime * sample_rate + 999) / 1000 + 1

/-- init_buffers (cw_generator.cpp lines 524-562): clamps the frequency to
the device-valid range, recomputes the tone period, the envelope length and
the dit length, and resets `inchar_index`.  The `malloc`/table-filling of
`signal_buffer`, `output_buffer` and `cw_keyshape` produces the abstract
tables passed separately to `get_audio_buffer`. -/
def init_buffers (s : CWGenerator) : CWGenerator :=
  let f0 := if s.audio_maxfreq < s.cw_frequency then s.audio_maxfreq else s.cw_frequency
  let f := if f0 < s.audio_minfreq then s.audio_minfreq else f0
  let period := signal_buffer_period_calc s.cw_sample_rate f
  { s with
    cw_frequency := f
    signal_buffer_period := period
    cw_risetime_samples := cw_risetime_samples_calc s.cw_risetime s.cw_sample_rate
    signal_dit_length_index := signal_dit_length_calc s.cw_wpm s.cw_sample_rate period
    inchar_index := 0 }

/-- clear_queue (cw_generator.cpp lines 567-569): drains the character
queue. -/
def clear_queue (s : CWGenerator) : CWGenerator :=
  { s with cw_character_queue := [] }

/-- set_frequency (cw_generator.cpp lines 584-587): stores the requested
frequency and regenerates the tables (init_buffers clamps it). -/
def set_frequency (s : CWGenerator) (freq : ℕ) : CWGenerator :=
  init_buffers { s with cw_frequency := freq }

/-- get_frequency (cw_generator.cpp lines 593-595). -/
def get_frequency (s : CWGenerator) : ℕ := s.cw_frequency

/-- set_wpm (cw_generator.cpp lines 601-605): two sequenced conditional
assignments clamping the speed to [WPM_MIN, WPM_MAX], then init_buffers. -/
def set_wpm (s : CWGenerator) (wpm : ℕ) : CWGenerator :=
  let w1 := if wpm < WPM_MIN then WPM_MIN else wpm
  let w2 := if WPM_MAX < wpm then WPM_MAX else w1
  init_buffers { s with cw_wpm := w2 }

/-- get_wpm (cw_generator.cpp lines 611-613). -/
def get_wpm (s : CWGenerator) : ℕ := s.cw_wpm

/-- Modelled from the spec: `set_risetime` is called by the decoder
(winkeyer_parser.cpp line 257) but its body is in a part of
cw_generator.cpp not present in the sources; the spec says the envelope
rise time is in ms, "clamped [1,50]", and that each mutation triggers full
table regeneration. -/
def set_risetime (s : CWGenerator) (risetime : ℕ) : CWGenerator :=
  init_buffers { s with cw_risetime := min (max risetime 1) 50 }

/-- Character of a morse text string (send_character, cw_generator.cpp
lines 649-669): '.' is a DIT, '-' a DAH, anything else a PAUSE. -/
def char_to_cw (c : Char) : CW_CHARACTERS :=
  if c = '.' then CHAR_DIT else if c = '-' then CHAR_DAH else CHAR_PAUSE

/-- send_character(char*) (cw_generator.cpp lines 649-669): appends up to
10 morse code characters of the string and then
`INTER_CHAR_PAUSE_UNITS - 1` extra pauses.  The bounded queue's blocking
push is modelled as plain list append. -/
def send_character_str (s : CWGenerator) (str : String) : CWGenerator :=
  { s with cw_character_queue :=
      s.cw_character_queue ++ (str.data.take 10).map char_to_cw ++
        List.replicate (INTER_CHAR_PAUSE_UNITS - 1) CHAR_PAUSE }

/-- set_state (cw_generator.cpp lines 676-700): installs the end index and
the new state for the given character (the Neopixel color argument is pure
output and is not modelled). -/
def set_state (s : CWGenerator) (ch : CW_CHARACTERS) : CWGenerator :=
  match ch with
  | CHAR_PAUSE =>
      { s with
        nextstate := STATE_IDLE
        inchar_endindex := s.signal_dit_length_index * INTRA_CHAR_PAUSE_UNITS
        curstate := if s.curstate = STATE_DIT then STATE_DIT_PAUSE else STATE_DAH_PAUSE }
  | CHAR_DIT =>
      { s with
        inchar_endindex := s.signal_dit_length_index * DIT_UNITS
        curstate := STATE_DIT }
  | CHAR_DAH =>
      { s with
        inchar_endindex := s.signal_dit_length_index * DAH_UNITS
        curstate := STATE_DAH }

/-- update_statemachine (cw_generator.cpp lines 705-781).  The two paddle
reads (`debouncer.read(DIT_GPIO) == 0`, `debouncer.read(DAH_GPIO) == 0`,
active low) are the boolean inputs `dit_pressed` and `dah_pressed`,
constant within one tick.  The queue pop `queue_try_remove` is the list
head; `printf` and the Neopixel are output only. -/
def update_statemachine (s : CWGenerator) (dit_pressed dah_pressed : Bool) : CWGenerator :=
  let t :=
    if s.curstate = STATE_INIT then
      { s with
        inchar_index := 0
        inchar_endindex := s.cw_sample_rate / s.signal_buffer_period
        curstate := STATE_INIT_PAUSE }
    else if s.curstate = STATE_IDLE then
      let s := { s with inchar_index := 0 }
      let s :=
        if s.nextstate = STATE_DIT then
          set_state (clear_queue s) CHAR_DIT
        else if s.nextstate = STATE_DAH then
          set_state (clear_queue s) CHAR_DAH
        else if dit_pressed then
          set_state (clear_queue s) CHAR_DIT
        else if dah_pressed then
          set_state (clear_queue s) CHAR_DAH
        else
          match s.cw_character_queue with
          | curchar :: rest => set_state { s with cw_character_queue := rest } curchar
          | [] => s
      { s with nextstate := STATE_IDLE }
    else if s.inchar_endindex < s.inchar_index then
      let s := { s with inchar_index := 0 }
      match s.curstate with
      | STATE_DIT => set_state s CHAR_PAUSE
      | STATE_DAH => set_state s CHAR_PAUSE
      | STATE_DIT_PAUSE =>
          if dah_pressed then set_state s CHAR_DAH else { s with curstate := STATE_IDLE }
      | STATE_DAH_PAUSE =>
          if dit_pressed then set_state s CHAR_DIT else { s with curstate := STATE_IDLE }
      | STATE_INIT_PAUSE => { s with curstate := STATE_IDLE }
      | _ => { s with curstate := STATE_IDLE }
    else if s.curstate = STATE_DIT_PAUSE then
      if dah_pressed then { s with nextstate := STATE_DAH } else s
    else if s.curstate = STATE_DAH_PAUSE then
      if dit_pressed then { s with nextstate := STATE_DIT } else s
    else s
  { t with inchar_index := t.inchar_index + t.cw_sample_buffer_size }

/-- Conversion of a `float` back to `int16_t` by C assignment: truncation
toward zero. -/
def c_trunc (q : ℚ) : ℤ := if 0 ≤ q then ⌊q⌋ else ⌈q⌉

/-- `output_buffer[i] *= cw_keyshape[j]`: an `int16_t` sample scaled by a
`float` envelope entry and truncated back. -/
def c_scale (v : ℤ) (q : ℚ) : ℤ := c_trunc (v * q)

/-- get_audio_buffer (cw_generator.cpp lines 787-813).  `signal_buffer` is
the tone table (one period of the volume-scaled sine, `int16_t` entries)
and `cw_keyshape` the Blackman envelope table, both abstract.  The local
`int curpos = inchar_index_start - cw_sample_buffer_size + i` is computed
in 32-bit unsigned arithmetic (`inchar_index_start` is `uint32_t`) and all
its comparisons re-promote it to `uint32_t`, hence `u32sub`/`u32`. -/
def get_audio_buffer (s : CWGenerator) (signal_buffer : ℕ → ℤ)
    (cw_keyshape : ℕ → ℚ) : List ℤ :=
  if (s.curstate = STATE_DIT ∨ s.curstate = STATE_DAH) ∧ 0 < s.cw_volume then
    let inchar_index_start := u32sub s.inchar_index s.cw_sample_buffer_size
    (List.range s.cw_sample_buffer_size).map (fun i =>
      let curpos := u32 (u32sub inchar_index_start s.cw_sample_buffer_size + i)
      if curpos < s.inchar_endindex then
        let v := signal_buffer (curpos % s.signal_buffer_period)
        if curpos < s.cw_risetime_samples then
          c_scale v (cw_keyshape curpos)
        else if u32sub s.inchar_endindex s.cw_risetime_samples < curpos then
          c_scale v (cw_keyshape (s.inchar_endindex - curpos))
        else v
      else 0)
  else
    List.replicate s.cw_sample_buffer_size 0

/-- Absolute symbol position covered by entry `i` of the buffer returned
by `get_audio_buffer` on this tick, read off the code: `update_statemachine`
has already advanced `inchar_index` past this tick, and the synthesizer
subtracts `cw_sample_buffer_size` twice (lines 791 and 793), so entry `i`
sits at `uint32` position `inchar_index - 2 * cw_sample_buffer_size + i`. -/
def tick_position (s : CWGenerator) (i : ℕ) : ℕ :=
  u32 (u32sub (u32sub s.inchar_index s.cw_sample_buffer_size) s.cw_sample_buffer_size + i)

/-- WK123_CW_MAPPING (winkeyer_parser.cpp lines 39-102): ASCII 0x20-0x5D
to morse pattern strings. -/
def WK123_CW_MAPPING : List String :=
  ["       ", "", ".-..-.", "", "...-..-", "", "", ".----.",
   "-.--.", "-.--.-", "", ".-.-.", "--..--", "-....-", ".-.-.-", ".--.-",
   "-----", ".----", "..---", "...--", "....-", ".....", "-....", "--...",
   "---..", "----.", "-.--.", ".-.-", ".-.-.", "-...-", "...-.-", "..--..",
   ".--.-.", ".-", "-...", "-.-.", "-..", ".", "..-.", "--.",
   "....", "..", ".---", "-.-", ".-..", "--", "-.", "---",
   ".--.", "--.-", ".-.", "...", "-", "..-", "...-", ".--",
   "-..-", "-.--", "..--", ".-...", "-..-.", "-.--."]

/-- WK12_FREQUENCY_LIST (winkeyer_parser.cpp lines 107-119): sidetone
frequency table for WK1/WK2 sessions. -/
def WK12_FREQUENCY_LIST : List ℕ :=
  [0, 4000, 2000, 1333, 1000, 800, 666, 571, 500, 444, 400]

/-- cw_mapping_min_ascii (winkeyer_parser.h). -/
def cw_mapping_min_ascii : ℕ := 0x20

/-- cw_mapping_max_ascii (winkeyer_parser.h). -/
def cw_mapping_max_ascii : ℕ := 0x5D

/-- State of class `WinKeyerParser` together with the generator it
mutates: the session version `wk_version` (initial value 3) and the
referenced `CWGenerator`. -/
structure WKDecoder where
  wk_version : ℕ
  gen : CWGenerator
deriving DecidableEq, Repr

/-- parse_admin_command (winkeyer_parser.cpp lines 170-274).  `buf` is the
64-byte serial read buffer as a total function (the C code can and does
read entries at or past `len`, which the buffer physically contains as
stale bytes), `offs` the position of the leading 0x00.  The result is the
updated state and the reply bytes the C code writes into `message[0..]`
(their count is the C return value).  The offset bookkeeping `(*offset)++`
is irrelevant here because parse_message returns this result directly.
`reset_usb_boot` (sub-command 28) never returns in C; it is modelled as
producing no reply and no state change. -/
def parse_admin_command (st : WKDecoder) (buf : ℕ → ℕ) (len offs : ℕ) :
    WKDecoder × List ℕ :=
  if len - offs < 2 then (st, [])
  else
    match buf (offs + 1) with
    | 2 => ({ st with wk_version := 1 }, [31, 3])
    | 4 => if 3 ≤ len - offs then (st, [buf (offs + 2)]) else (st, [])
    | 5 => (st, [0])
    | 6 => (st, [0])
    | 7 => (st, [0])
    | 9 => (st, [31])
    | 10 => ({ st with wk_version := 1 }, [])
    | 11 => ({ st with wk_version := 2 }, [])
    | 20 => ({ st with wk_version := 3 }, [])
    | 21 => (st, [52])
    | 23 => (st, [3])
    | 24 => (st, [1])
    | 26 =>
        if 3 ≤ len - offs ∧ 1 ≤ buf (offs + 2) ∧ buf (offs + 2) ≤ 50 then
          ({ st with gen := set_risetime st.gen (buf (offs + 2)) }, [])
        else (st, [])
    | 27 => ({ st with gen := set_frequency st.gen (buf (offs + 2) % 256 * 10) }, [])
    | _ => (st, [])

/-- Scanning loop of parse_message (winkeyer_parser.cpp lines 287-384),
with a structural fuel that dominates `len - i` (the index advances by at
least one per iteration, so `fuel = len` at `i = 0` never runs out).
The in-place upper-casing mutates only `message[i]` before use, so it is
modelled by shadowing; command parameter bytes are read raw, exactly as in
C where `message[i+1]` is read before that position is ever visited. -/
def parse_loop (fuel : ℕ) (st : WKDecoder) (buf : ℕ → ℕ) (len i : ℕ) :
    WKDecoder × List ℕ :=
  match fuel with
  | 0 => (st, [])
  | fuel + 1 =>
    if len ≤ i then (st, [])
    else
      let b0 := buf i
      let b := if 0x61 ≤ b0 ∧ b0 ≤ 0x7a then b0 - 0x20 else b0
      if cw_mapping_min_ascii ≤ b ∧ b ≤ cw_mapping_max_ascii then
        parse_loop fuel
          { st with gen :=
              send_character_str st.gen (WK123_CW_MAPPING.getD (b - cw_mapping_min_ascii) "") }
          buf len (i + 1)
      else
        match b with
        | 0x00 => parse_admin_command st buf len i
        | 0x01 =>
            if 2 ≤ len then
              let p := buf (i + 1)
              let st :=
                if st.wk_version < 3 ∧ 1 ≤ p ∧ p ≤ 10 then
                  { st with gen := set_frequency st.gen (WK12_FREQUENCY_LIST.getD p 0) }
                else if st.wk_version = 3 ∧ 15 ≤ p ∧ p ≤ 125 then
                  { st with gen := set_frequency st.gen (62500 / p) }
                else st
              parse_loop fuel st buf len (i + 2)
            else parse_loop fuel st buf len (i + 1)
        | 0x02 =>
            if 2 ≤ len ∧ 5 ≤ buf (i + 1) ∧ buf (i + 1) ≤ 99 then
              parse_loop fuel { st with gen := set_wpm st.gen (buf (i + 1)) } buf len (i + 2)
            else parse_loop fuel st buf len (i + 1)
        | 0x07 => (st, [(get_wpm st.gen).land 0x3F |>.lor 0x80])
        | 0x0E => parse_loop fuel { st with wk_version := 3 } buf len (i + 1)
        | 0x15 => (st, [0xC0])
        | _ => parse_loop fuel st buf len (i + 1)

/-- parse_message (winkeyer_parser.cpp lines 282-385): scans `len` bytes
of `buf` from position 0 (the `message == NULL` guard has no counterpart
for a total `buf`). -/
def parse_message (st : WKDecoder) (buf : ℕ → ℕ) (len : ℕ) : WKDecoder × List ℕ :=
  if len = 0 then (st, []) else parse_loop len st buf len 0

/-- Per-position output sample demanded by the specification of the
sample synthesizer: at absolute symbol position `p`, the value is
`tone_table[p mod tone_period]` when `p` is before the end index,
multiplied by the envelope entry `keyshape[p]` when `p` lies within the
first `rise` samples of the symbol and by `keyshape[endi - p]` when `p`
lies within the last `rise` samples (i.e. `endi - p < rise`, the reading
under which the envelope index stays inside the `rise`-entry table);
positions at or past the end index yield 0. -/
def claim_sample (tone : ℕ → ℤ) (ks : ℕ → ℚ) (endi period rise p : ℕ) : ℤ :=
  if endi ≤ p then 0
  else
    let v := tone (p % period)
    let v1 := if p < rise then c_scale v (ks p) else v
    if endi - p < rise then c_scale v1 (ks (endi - p)) else v1

/-- Dit length demanded by the specification: the exact value
`(60 / (50 * wpm)) * sample_rate` rounded up to the nearest integer
multiple of the tone period, i.e. `ceil(60 * sr / (50 * wpm * period))`
periods, computed in exact arithmetic. -/
def spec_dit_length (wpm sample_rate period : ℕ) : ℕ :=
  ((60 * sample_rate + 50 * wpm * period - 1) / (50 * wpm * period)) * period

/-- Generator in the configuration of the reference deployment:
48 kHz sample rate, 48-sample buffers, 700 Hz default tone, 20 WPM,
full volume, 6 ms rise time (derived fields as recomputed by
init_buffers). -/
def demo_gen : CWGenerator :=
  { curstate := STATE_IDLE
    nextstate := STATE_IDLE
    cw_sample_rate := 48000
    cw_sample_buffer_size := 48
    cw_frequency := 700
    cw_wpm := 20
    cw_volume := 32767
    cw_risetime := 6
    cw_risetime_samples := 289
    signal_buffer_period := 69
    signal_dit_length_index := 2898
    inchar_index := 0
    inchar_endindex := 0
    audio_minfreq := 100
    audio_maxfreq := 5000
    cw_character_queue := [] }

/-- Freshly constructed generator state: `curstate = STATE_INIT`. -/
def demo_init : CWGenerator := { demo_gen with curstate := STATE_INIT }

/-- Freshly constructed decoder: `wk_version = 3` (winkeyer_parser.h). -/
def demo_wk : WKDecoder := { wk_version := 3, gen := demo_gen }

/-- A 2-byte serial read `{0x03, 0x02}` sitting in the 64-byte buffer, the
speed command starting at the last available byte; position 2 holds a
stale byte 50 left over from earlier traffic. -/
def stale_buf : ℕ → ℕ :=
  fun j => if j = 0 then 0x03 else if j = 1 then 0x02 else if j = 2 then 50 else 0

/-- The Host Open admin command `{0x00, 0x02}`. -/
def host_buf : ℕ → ℕ := fun j => if j = 0 then 0 else if j = 1 then 2 else 0

/-- The sidetone frequency command `{0x01, 100}`. -/
def freq_buf : ℕ → ℕ := fun j => if j = 0 then 1 else if j = 1 then 100 else 0

/-- Generator mid-way through sounding a DIT (third tick of the symbol:
`inchar_index` already advanced to 3 buffers), with small table sizes to
keep the witness evaluation concrete. -/
def demo_dit : CWGenerator :=
  { demo_gen with
    curstate := STATE_DIT
    cw_sample_buffer_size := 4
    signal_buffer_period := 3
    cw_risetime_samples := 2
    inchar_index := 12
    inchar_endindex := 9 }

/-- Generator inside the intra-character pause after a DIT, still within
the pause window. -/
def demo_pause : CWGenerator :=
  { demo_gen with
    curstate := STATE_DIT_PAUSE
    inchar_index := 96
    inchar_endindex := 2898 }

/-- Idle generator with one queued serial symbol. -/
def demo_idle_queued : CWGenerator :=
  { demo_gen with cw_character_queue := [CHAR_DAH, CHAR_PAUSE] }

/-- Abstract tone table for witnesses. -/
def demo_tone : ℕ → ℤ := fun n => 1000 - 3 * (n : ℤ)

/-- Abstract envelope table for witnesses. -/
def demo_keyshape : ℕ → ℚ := fun n => (n : ℚ) / 2

/-- Per-position output sample of the synthesizer with the envelope
windows as the code prioritizes them: at absolute symbol position `p`,
the value is `tone_table[p mod tone_period]` when `p` is before the end
index, scaled by the envelope entry `keyshape[p]` when `p` lies within
the first `rise` samples of the symbol, or else by `keyshape[endi - p]`
when `p` lies within the last `rise` samples (`endi - p < rise`); when
the two windows overlap (`endi < 2 * rise`) the attack factor takes
precedence and at most one envelope factor is applied.  Positions at or
past the end index yield 0. -/
def amended_sample (tone : ℕ → ℤ) (ks : ℕ → ℚ) (endi period rise p : ℕ) : ℤ :=
  if endi ≤ p then 0
  else if p < rise then c_scale (tone (p % period)) (ks p)
  else if endi - p < rise then c_scale (tone (p % period)) (ks (endi - p))
  else tone (p % period)

/-- Generator sounding a Dit whose attack and release windows overlap
(`end_index = 6 < 2 * rise = 8`), as happens on the device for large
rise times (admin sub-command 26 allows up to 50 ms, i.e. 2401 samples
at 48 kHz, while a 20-WPM dit is only 2898 samples and a 99-WPM dit only
621); second tick of the symbol, so the buffer covers positions 0..3. -/
def demo_dit_overlap : CWGenerator :=
  { demo_gen with
    curstate := STATE_DIT
    cw_sample_buffer_size := 4
    signal_buffer_period := 3
    cw_risetime_samples := 4
    inchar_index := 8
    inchar_endindex := 6 }

/-- C7: set_wpm stores the argument clamped to [10, 99] and get_wpm
returns that clamped value; in particular 150 clamps to 99 and 1 clamps
to 10. -/
theorem set_wpm_clamps (s : CWGenerator) (wpm : ℕ) :
    get_wpm (set_wpm s wpm) = min (max wpm 10) 99 ∧
    get_wpm (set_wpm s 150) = 99 ∧
    get_wpm (set_wpm s 1) = 10 := by
  refine ⟨?_, ?_, ?_⟩ <;>
    simp only [get_wpm, set_wpm, init_buffers, WPM_MIN, WPM_MAX] <;>
    split_ifs <;> omega

/-- C3 is a code bug: a speed command (0x02) beginning at the last
available byte of the message must be ignored with no state change, but
parse_message guards only `length >= 2` instead of checking that the
parameter position `i + 1` is below `length`, so it reads the stale byte
at position 2 of the read buffer (here 50) and reconfigures the speed
from 20 WPM to 50 WPM. -/
theorem parse_reads_past_length :
    (parse_message demo_wk stale_buf 2).2 = [] ∧
    demo_wk.gen.cw_wpm = 20 ∧
    (parse_message demo_wk stale_buf 2).1.gen.cw_wpm = 50 := by decide

/-- C4 is a code bug: the first tick does move Init to InitPause, but the
progress end index is set to `cw_sample_rate / signal_buffer_period`
(48000 / 69 = 695 samples, about 14 ms) instead of one second's worth of
progress, so with 48-sample buffers the machine reaches Idle on tick 16,
after 768 samples of audio, far less than the one second (48000 samples)
the specification and the code's own comment ("wait for 1s") require. -/
theorem initpause_shorter_than_one_second :
    (update_statemachine demo_init false false).curstate = STATE_INIT_PAUSE ∧
    (update_statemachine demo_init false false).inchar_endindex = 695 ∧
    ((fun s => update_statemachine s false false)^[15] demo_init).curstate
      = STATE_INIT_PAUSE ∧
    ((fun s => update_statemachine s false false)^[16] demo_init).curstate
      = STATE_IDLE ∧
    16 * demo_init.cw_sample_buffer_size = 768 ∧
    768 < demo_init.cw_sample_rate := by decide

/-- C9: the Host Open admin command (bytes 0x00 0x02) yields the 2-byte
revision reply {31, 3} and resets the session version to 1. -/
theorem host_open_reply (st : WKDecoder) (buf : ℕ → ℕ) (len : ℕ)
    (h0 : buf 0 = 0) (h1 : buf 1 = 2) (hlen : 2 ≤ len) :
    parse_message st buf len = ({ st with wk_version := 1 }, [31, 3]) := by
  obtain ⟨n, rfl⟩ : ∃ n, len = n + 1 := ⟨len - 1, by omega⟩
  have hn : ¬ (n + 1 ≤ 0) := by omega
  have h2 : ¬ (n + 1 - 0 < 2) := by omega
  simp only [parse_message, parse_loop, parse_admin_command, h0, h1,
    cw_mapping_min_ascii, cw_mapping_max_ascii, hn, h2]
  norm_num

/-- C9 witness: the concrete Host Open exchange on the fresh decoder. -/
theorem host_open_reply_witness :
    host_buf 0 = 0 ∧ host_buf 1 = 2 ∧ 2 ≤ 2 ∧
    parse_message demo_wk host_buf 2 = ({ demo_wk with wk_version := 1 }, [31, 3]) :=
  ⟨rfl, rfl, by omega, host_open_reply demo_wk host_buf 2 rfl rfl (by omega)⟩

/-- C5: in DitPause, a Dah press within the pause window records the
look-ahead (`nextstate = STATE_DAH`, still pausing), and a Dah press on
the expiry tick moves the machine directly from DitPause to Dah in that
single tick, with no intervening Idle tick; symmetrically for DahPause
and the Dit paddle. -/
theorem pause_squeeze_direct (s : CWGenerator) (dit_pressed dah_pressed : Bool) :
    (s.curstate = STATE_DIT_PAUSE → s.inchar_index ≤ s.inchar_endindex →
      dah_pressed = true →
      (update_statemachine s dit_pressed dah_pressed).nextstate = STATE_DAH ∧
      (update_statemachine s dit_pressed dah_pressed).curstate = STATE_DIT_PAUSE) ∧
    (s.curstate = STATE_DIT_PAUSE → s.inchar_endindex < s.inchar_index →
      dah_pressed = true →
      (update_statemachine s dit_pressed dah_pressed).curstate = STATE_DAH) ∧
    (s.curstate = STATE_DAH_PAUSE → s.inchar_index ≤ s.inchar_endindex →
      dit_pressed = true →
      (update_statemachine s dit_pressed dah_pressed).nextstate = STATE_DIT ∧
      (update_statemachine s dit_pressed dah_pressed).curstate = STATE_DAH_PAUSE) ∧
    (s.curstate = STATE_DAH_PAUSE → s.inchar_endindex < s.inchar_index →
      dit_pressed = true →
      (update_statemachine s dit_pressed dah_pressed).curstate = STATE_DIT) := by
  refine ⟨fun hc hw hd => ?_, fun hc he hd => ?_, fun hc hw hd => ?_, fun hc he hd => ?_⟩ <;>
    subst hd <;>
    first
      | simp [update_statemachine, set_state, clear_queue, hc, Nat.not_lt.mpr hw]
      | simp [update_statemachine, set_state, clear_queue, hc, he]

/-- C5 witness: in the concrete DitPause state within the pause window a
Dah press sets the look-ahead, and in the expired DitPause state it moves
directly to Dah. -/
theorem pause_squeeze_direct_witness :
    (demo_pause.curstate = STATE_DIT_PAUSE ∧
      demo_pause.inchar_index ≤ demo_pause.inchar_endindex ∧
      (update_statemachine demo_pause false true).nextstate = STATE_DAH ∧
      (update_statemachine demo_pause false true).curstate = STATE_DIT_PAUSE) ∧
    ({ demo_pause with inchar_index := 2899 }.curstate = STATE_DIT_PAUSE ∧
      { demo_pause with inchar_index := 2899 }.inchar_endindex < 2899 ∧
      (update_statemachine { demo_pause with inchar_index := 2899 } false true).curstate
        = STATE_DAH) :=
  ⟨⟨by decide, by decide,
      (pause_squeeze_direct demo_pause false true).1 (by decide) (by decide) rfl⟩,
    ⟨by decide, by decide,
      (pause_squeeze_direct { demo_pause with inchar_index := 2899 } false true).2.1
        (by decide) (by decide) rfl⟩⟩

/-- C6: on an Idle tick, a pending look-ahead symbol or a pressed paddle
clears the transmission queue in full and enters the corresponding
Dit/Dah state (look-ahead first, then Dit paddle, then Dah paddle), so a
previously enqueued serial symbol is never transmitted; the queue is
popped only when no look-ahead and no paddle is pending. -/
theorem idle_preempts_queue (s : CWGenerator) (dit_pressed dah_pressed : Bool)
    (hc : s.curstate = STATE_IDLE) :
    (s.nextstate = STATE_DIT →
      (update_statemachine s dit_pressed dah_pressed).cw_character_queue = [] ∧
      (update_statemachine s dit_pressed dah_pressed).curstate = STATE_DIT) ∧
    (s.nextstate = STATE_DAH →
      (update_statemachine s dit_pressed dah_pressed).cw_character_queue = [] ∧
      (update_statemachine s dit_pressed dah_pressed).curstate = STATE_DAH) ∧
    (s.nextstate = STATE_IDLE → dit_pressed = true →
      (update_statemachine s dit_pressed dah_pressed).cw_character_queue = [] ∧
      (update_statemachine s dit_pressed dah_pressed).curstate = STATE_DIT) ∧
    (s.nextstate = STATE_IDLE → dit_pressed = false → dah_pressed = true →
      (update_statemachine s dit_pressed dah_pressed).cw_character_queue = [] ∧
      (update_statemachine s dit_pressed dah_pressed).curstate = STATE_DAH) ∧
    (s.nextstate = STATE_IDLE → dit_pressed = false → dah_pressed = false →
      (update_statemachine s dit_pressed dah_pressed).cw_character_queue
        = s.cw_character_queue.tail) := by
  refine ⟨fun hn => ?_, fun hn => ?_, fun hn hd => ?_, fun hn hd hh => ?_,
    fun hn hd hh => ?_⟩
  · simp [update_statemachine, set_state, clear_queue, hc, hn]
  · simp [update_statemachine, set_state, clear_queue, hc, hn]
  · subst hd; simp [update_statemachine, set_state, clear_queue, hc, hn]
  · subst hd; subst hh
    simp [update_statemachine, set_state, clear_queue, hc, hn]
  · subst hd; subst hh
    cases hq : s.cw_character_queue with
    | nil => simp [update_statemachine, set_state, clear_queue, hc, hn, hq]
    | cons c rest =>
        cases c <;> simp [update_statemachine, set_state, clear_queue, hc, hn, hq]

/-- C6 witness: with a queued Dah waiting, pressing the Dit paddle on an
Idle tick empties the queue and starts a Dit. -/
theorem idle_preempts_queue_witness :
    demo_idle_queued.curstate = STATE_IDLE ∧
    demo_idle_queued.nextstate = STATE_IDLE ∧
    demo_idle_queued.cw_character_queue = [CHAR_DAH, CHAR_PAUSE] ∧
    (update_statemachine demo_idle_queued true false).cw_character_queue = [] ∧
    (update_statemachine demo_idle_queued true false).curstate = STATE_DIT :=
  ⟨by decide, by decide, by decide,
    (idle_preempts_queue demo_idle_queued true false (by decide)).2.2.1 (by decide) rfl⟩

/-- Helper: the clamped frequency stored by set_frequency, as a plain
conditional. -/
theorem set_frequency_stores (g : CWGenerator) (f : ℕ) :
    (set_frequency g f).cw_frequency =
      if g.audio_maxfreq < f then
        (if g.audio_maxfreq < g.audio_minfreq then g.audio_minfreq else g.audio_maxfreq)
      else (if f < g.audio_minfreq then g.audio_minfreq else f) := by
  simp only [set_frequency, init_buffers]
  split_ifs <;> simp_all

/-- Helper: a 2-byte message `{0x01, p}` drives the sidetone-frequency
dispatch of parse_message. -/
theorem parse_sidetone_step (st : WKDecoder) (buf : ℕ → ℕ) (p : ℕ)
    (hb0 : buf 0 = 1) (hb1 : buf 1 = p) :
    parse_message st buf 2 =
      (if st.wk_version < 3 ∧ 1 ≤ p ∧ p ≤ 10 then
        { st with gen := set_frequency st.gen (WK12_FREQUENCY_LIST.getD p 0) }
      else if st.wk_version = 3 ∧ 15 ≤ p ∧ p ≤ 125 then
        { st with gen := set_frequency st.gen (62500 / p) }
      else st, []) := by
  simp only [parse_message, parse_loop, hb0, hb1, cw_mapping_min_ascii,
    cw_mapping_max_ascii]
  norm_num

/-- C8: on command byte 0x01 with parameter `p`, a version-1/2 session
with `p` in [1,10] sets the frequency from the 11-entry table, a
version-3 session with `p` in [15,125] sets it to `62500 / p` (integer
division), and a parameter outside the applicable range leaves the
frequency unchanged.  The generator's internal clamp to the device-valid
audio range (bounds in the missing header) is assumed wide enough to
contain the requested values (400..4166 Hz). -/
theorem sidetone_frequency_dispatch (st : WKDecoder) (buf : ℕ → ℕ) (p : ℕ)
    (hb0 : buf 0 = 1) (hb1 : buf 1 = p)
    (hmin : st.gen.audio_minfreq ≤ 400) (hmax : 4166 ≤ st.gen.audio_maxfreq) :
    ((st.wk_version = 1 ∨ st.wk_version = 2) → 1 ≤ p → p ≤ 10 →
      (parse_message st buf 2).1.gen.cw_frequency = WK12_FREQUENCY_LIST.getD p 0) ∧
    (st.wk_version = 3 → 15 ≤ p → p ≤ 125 →
      (parse_message st buf 2).1.gen.cw_frequency = 62500 / p) ∧
    ((st.wk_version = 1 ∨ st.wk_version = 2) → ¬ (1 ≤ p ∧ p ≤ 10) →
      (parse_message st buf 2).1.gen.cw_frequency = st.gen.cw_frequency) ∧
    (st.wk_version = 3 → ¬ (15 ≤ p ∧ p ≤ 125) →
      (parse_message st buf 2).1.gen.cw_frequency = st.gen.cw_frequency) := by
  rw [parse_sidetone_step st buf p hb0 hb1]
  refine ⟨fun hv hp1 hp2 => ?_, fun hv hp1 hp2 => ?_, fun hv hp => ?_, fun hv hp => ?_⟩
  · have hlt : st.wk_version < 3 := by rcases hv with h | h <;> omega
    have hval : 400 ≤ WK12_FREQUENCY_LIST.getD p 0 ∧ WK12_FREQUENCY_LIST.getD p 0 ≤ 4000 := by
      interval_cases p <;> simp [WK12_FREQUENCY_LIST]
    rw [if_pos ⟨hlt, hp1, hp2⟩]
    simp only [set_frequency_stores]
    split_ifs <;> omega
  · have hne : ¬ (st.wk_version < 3 ∧ 1 ≤ p ∧ p ≤ 10) := by omega
    have hv1 : 62500 / p ≤ 62500 / 15 := Nat.div_le_div_left hp1 (by omega)
    have hv2 : 62500 / 125 ≤ 62500 / p := Nat.div_le_div_left hp2 (by omega)
    have h15 : 62500 / 15 = 4166 := by norm_num
    have h125 : 62500 / 125 = 500 := by norm_num
    rw [if_neg hne, if_pos ⟨hv, hp1, hp2⟩]
    simp only [set_frequency_stores]
    split_ifs <;> omega
  · have h1 : ¬ (st.wk_version < 3 ∧ 1 ≤ p ∧ p ≤ 10) := by tauto
    have h2 : ¬ (st.wk_version = 3 ∧ 15 ≤ p ∧ p ≤ 125) := by
      rcases hv with h | h <;> omega
    rw [if_neg h1, if_neg h2]
  · have h1 : ¬ (st.wk_version < 3 ∧ 1 ≤ p ∧ p ≤ 10) := by omega
    have h2 : ¬ (st.wk_version = 3 ∧ 15 ≤ p ∧ p ≤ 125) := by tauto
    rw [if_neg h1, if_neg h2]

/-- C8 witness: a fresh version-3 decoder receiving `{0x01, 100}` stores
62500 / 100 = 625 Hz. -/
theorem sidetone_frequency_dispatch_witness :
    freq_buf 0 = 1 ∧ freq_buf 1 = 100 ∧
    demo_wk.gen.audio_minfreq ≤ 400 ∧ 4166 ≤ demo_wk.gen.audio_maxfreq ∧
    demo_wk.wk_version = 3 ∧
    (parse_message demo_wk freq_buf 2).1.gen.cw_frequency = 62500 / 100 :=
  ⟨rfl, rfl, by decide, by decide, rfl,
    (sidetone_frequency_dispatch demo_wk freq_buf 100 rfl rfl (by decide)
      (by decide)).2.1 rfl (by omega) (by omega)⟩

/-- C2 counterexample: with speed 11 WPM, sample rate 48000 and sidetone
625 Hz (settable as version-3 sidetone parameter 100) the tone period is
77 samples; the code first truncates `(60/(50*11))*48000 = 5236.36...` to
the integer sample count 5236, which happens to be a multiple of 77
already, and therefore keeps 5236, while rounding the exact value up to
the nearest multiple of the period gives 69 * 77 = 5313. -/
theorem dit_length_counterexample :
    signal_buffer_period_calc 48000 625 = 77 ∧
    62500 / 100 = 625 ∧
    signal_dit_length_calc 11 48000 77 = 5236 ∧
    spec_dit_length 11 48000 77 = 5313 ∧
    signal_dit_length_calc 11 48000 77 ≠ spec_dit_length 11 48000 77 := by
  refine ⟨by norm_num [signal_buffer_period_calc], by norm_num,
    by norm_num [signal_dit_length_calc], by norm_num [spec_dit_length], by
      norm_num [signal_dit_length_calc, spec_dit_length]⟩

/-- C2 amended: after table regeneration the dit length is the least
integer multiple of the tone period that is at least
`floor((60/(50*wpm))*sample_rate)` — the code truncates the sample count
to an integer before rounding up to a period multiple — and for
wpm = 20, sample_rate = 48000 the truncation is lossless (the count is
exactly 2880), so the dit length equals `ceil(2880/period)*period`, an
exact integer multiple of the tone period. -/
theorem dit_length_amended (wpm sample_rate period : ℕ) (hp : 0 < period) :
    period ∣ signal_dit_length_calc wpm sample_rate period ∧
    60 * sample_rate / (50 * wpm) ≤ signal_dit_length_calc wpm sample_rate period ∧
    signal_dit_length_calc wpm sample_rate period
      < 60 * sample_rate / (50 * wpm) + period ∧
    signal_dit_length_calc 20 48000 period = (2880 + period - 1) / period * period := by
  have key : ∀ d : ℕ, d ≤ ((d + period - 1) / period) * period ∧
      ((d + period - 1) / period) * period < d + period := by
    intro d
    have h1 : ((d + period - 1) / period) * period + (d + period - 1) % period
        = d + period - 1 := by rw [Nat.mul_comm]; exact Nat.div_add_mod _ _
    have h2 : (d + period - 1) % period < period := Nat.mod_lt _ hp
    omega
  exact ⟨dvd_mul_left _ _, (key _).1, (key _).2, by norm_num [signal_dit_length_calc]⟩

/-- Helper: parse_admin_command reads the message buffer only at
positions `offs + 1` and `offs + 2`. -/
theorem parse_admin_command_reads (st : WKDecoder) (buf bufa : ℕ → ℕ) (len offs : ℕ)
    (h1 : buf (offs + 1) = bufa (offs + 1)) (h2 : buf (offs + 2) = bufa (offs + 2)) :
    parse_admin_command st buf len offs = parse_admin_command st bufa len offs := by
  simp only [parse_admin_command, h1, h2]

/-- C10: when the scanner of parse_message meets the admin byte 0x00 at
position `i`, it returns the admin-command result immediately (no
further iteration), and that result does not depend on any buffer
content past position `i + 2` (the farthest byte an admin command
consumes), so every byte following the admin command in the same read is
discarded uninterpreted. -/
theorem admin_byte_discards_rest (st : WKDecoder) (buf bufa : ℕ → ℕ)
    (len i fuel : ℕ) (hi : i < len) (h0 : buf i = 0)
    (hagree : ∀ j, j ≤ i + 2 → buf j = bufa j) :
    parse_loop (fuel + 1) st buf len i = parse_admin_command st buf len i ∧
    parse_loop (fuel + 1) st bufa len i = parse_admin_command st buf len i := by
  have h0a : bufa i = 0 := by rw [← hagree i (by omega)]; exact h0
  have hle : ¬ (len ≤ i) := by omega
  have hstep : parse_loop (fuel + 1) st buf len i = parse_admin_command st buf len i := by
    simp [parse_loop, h0, hle, cw_mapping_min_ascii, cw_mapping_max_ascii]
  have hstepa : parse_loop (fuel + 1) st bufa len i = parse_admin_command st bufa len i := by
    simp [parse_loop, h0a, hle, cw_mapping_min_ascii, cw_mapping_max_ascii]
  exact ⟨hstep, hstepa.trans (parse_admin_command_reads st buf bufa len i
    (hagree (i + 1) (by omega)) (hagree (i + 2) (by omega))).symm⟩

/-- C10 witness: a Host Open admin command followed by two junk bytes in
a 4-byte read gives the same immediate admin result as the clean buffer. -/
theorem admin_byte_discards_rest_witness :
    host_buf 0 = 0 ∧ (0 : ℕ) < 4 ∧
    parse_loop 4 demo_wk host_buf 4 0 = parse_admin_command demo_wk host_buf 4 0 ∧
    parse_loop 4 demo_wk (fun j => if j ≤ 2 then host_buf j else 77) 4 0
      = parse_admin_command demo_wk host_buf 4 0 :=
  ⟨rfl, by omega,
    (admin_byte_discards_rest demo_wk host_buf
      (fun j => if j ≤ 2 then host_buf j else 77) 4 0 3 (by omega) rfl
      (fun j hj => by simp [hj])).1,
    (admin_byte_discards_rest demo_wk host_buf
      (fun j => if j ≤ 2 then host_buf j else 77) 4 0 3 (by omega) rfl
      (fun j hj => by simp [hj])).2⟩

/-- C2 witness: the amended dit-length characterization at the reference
configuration (20 WPM, 48 kHz, 700 Hz tone period 69). -/
theorem dit_length_amended_witness :
    (0 : ℕ) < 69 ∧
    69 ∣ signal_dit_length_calc 20 48000 69 ∧
    60 * 48000 / (50 * 20) ≤ signal_dit_length_calc 20 48000 69 ∧
    signal_dit_length_calc 20 48000 69 < 60 * 48000 / (50 * 20) + 69 ∧
    signal_dit_length_calc 20 48000 69 = (2880 + 69 - 1) / 69 * 69 :=
  ⟨by norm_num, (dit_length_amended 20 48000 69 (by norm_num)).1,
    (dit_length_amended 20 48000 69 (by norm_num)).2.1,
    (dit_length_amended 20 48000 69 (by norm_num)).2.2.1,
    (dit_length_amended 20 48000 69 (by norm_num)).2.2.2⟩

/-- C1 counterexample: on a Dit tick whose attack and release windows
overlap (`end_index = 6 < 2 * rise = 8`, reachable since admin
sub-command 26 allows rise times up to 2401 samples while a dit can be
as short as 621), position `p = 3` lies in both the first and the last
`rise` samples of the symbol; the code (else-if) applies only the attack
entry, giving `c_scale 1000 (3/2) = 1500`, while the claim's reading
applies both envelope factors, giving `c_scale 1500 (3/2) = 2250`. -/
theorem get_audio_buffer_counterexample :
    demo_dit_overlap.curstate = STATE_DIT ∧
    0 < demo_dit_overlap.cw_volume ∧
    demo_dit_overlap.inchar_endindex < 2 * demo_dit_overlap.cw_risetime_samples ∧
    tick_position demo_dit_overlap 3 = 3 ∧
    (get_audio_buffer demo_dit_overlap demo_tone demo_keyshape)[3]? = some 1500 ∧
    claim_sample demo_tone demo_keyshape demo_dit_overlap.inchar_endindex
      demo_dit_overlap.signal_buffer_period demo_dit_overlap.cw_risetime_samples
      (tick_position demo_dit_overlap 3) = 2250 ∧
    (get_audio_buffer demo_dit_overlap demo_tone demo_keyshape)[3]?
      ≠ some (claim_sample demo_tone demo_keyshape demo_dit_overlap.inchar_endindex
          demo_dit_overlap.signal_buffer_period demo_dit_overlap.cw_risetime_samples
          (tick_position demo_dit_overlap 3)) := by
  have htp : tick_position demo_dit_overlap 3 = 3 := by
    norm_num [tick_position, demo_dit_overlap, demo_gen, u32, u32sub, u32mod]
  have hbuf : (get_audio_buffer demo_dit_overlap demo_tone demo_keyshape)[3]?
      = some 1500 := by
    norm_num [get_audio_buffer, demo_dit_overlap, demo_gen, u32, u32sub, u32mod,
      List.getElem?_map, List.getElem?_range, demo_tone, demo_keyshape, c_scale, c_trunc]
  have hclaim : claim_sample demo_tone demo_keyshape demo_dit_overlap.inchar_endindex
      demo_dit_overlap.signal_buffer_period demo_dit_overlap.cw_risetime_samples
      (tick_position demo_dit_overlap 3) = 2250 := by
    rw [htp]
    norm_num [claim_sample, demo_dit_overlap, demo_gen, demo_tone, demo_keyshape,
      c_scale, c_trunc]
  refine ⟨rfl, by decide, by decide, htp, hbuf, hclaim, ?_⟩
  rw [hbuf, hclaim]
  decide

/-- C1 amended: on a Dit/Dah tick with positive volume the synthesizer
emits exactly `cw_sample_buffer_size` samples, and the sample at absolute
symbol position `p = tick_position s i` (the `uint32` positions this
tick's buffer covers) is `tone[p mod period]`, scaled by the envelope
entry `keyshape[p]` when `p` lies within the first `rise` samples of the
symbol, or else by `keyshape[end_index - p]` when `p` lies within the
last `rise` samples — at most one envelope factor, the attack taking
precedence when the two windows overlap; positions at or past the end
index yield 0.  No constraint on `rise` versus `end_index` is needed:
the theorem covers every Dit/Dah tick with a representable end index. -/
theorem get_audio_buffer_amended (s : CWGenerator) (tone : ℕ → ℤ) (ks : ℕ → ℚ)
    (hstate : s.curstate = STATE_DIT ∨ s.curstate = STATE_DAH)
    (hvol : 0 < s.cw_volume)
    (hend : s.inchar_endindex < u32mod) :
    (get_audio_buffer s tone ks).length = s.cw_sample_buffer_size ∧
    ∀ i, i < s.cw_sample_buffer_size →
      (get_audio_buffer s tone ks)[i]?
        = some (amended_sample tone ks s.inchar_endindex s.signal_buffer_period
            s.cw_risetime_samples (tick_position s i)) := by
  have hcond : (s.curstate = STATE_DIT ∨ s.curstate = STATE_DAH) ∧ 0 < s.cw_volume :=
    ⟨hstate, hvol⟩
  have hpoint : ∀ p : ℕ,
      (if p < s.inchar_endindex then
        (if p < s.cw_risetime_samples then
          c_scale (tone (p % s.signal_buffer_period)) (ks p)
        else if u32sub s.inchar_endindex s.cw_risetime_samples < p then
          c_scale (tone (p % s.signal_buffer_period)) (ks (s.inchar_endindex - p))
        else tone (p % s.signal_buffer_period))
      else 0)
      = amended_sample tone ks s.inchar_endindex s.signal_buffer_period
          s.cw_risetime_samples p := by
    intro p
    rw [amended_sample]
    rcases Nat.lt_or_ge s.inchar_endindex s.cw_risetime_samples with hcase | hcase
    · split_ifs <;> first | rfl | omega
    · have hsub : u32sub s.inchar_endindex s.cw_risetime_samples
          = s.inchar_endindex - s.cw_risetime_samples := by
        simp only [u32mod] at hend
        simp only [u32sub, u32mod]
        omega
      rw [hsub]
      split_ifs <;> first | rfl | omega
  constructor
  · simp [get_audio_buffer, hcond]
  · intro i hi
    simp only [get_audio_buffer, if_pos hcond, List.getElem?_map, List.getElem?_range, hi,
      if_pos, Option.map_some]
    exact congrArg some (hpoint (tick_position s i))

/-- C1 witness: the amended per-sample formula at the concrete
mid-symbol Dit state (non-overlapping windows) and at the overlapping
state of the counterexample's configuration, each at a concrete index. -/
theorem get_audio_buffer_amended_witness :
    (demo_dit.curstate = STATE_DIT ∨ demo_dit.curstate = STATE_DAH) ∧
    0 < demo_dit.cw_volume ∧ demo_dit.inchar_endindex < u32mod ∧
    (get_audio_buffer demo_dit demo_tone demo_keyshape).length
      = demo_dit.cw_sample_buffer_size ∧
    (get_audio_buffer demo_dit demo_tone demo_keyshape)[2]?
      = some (amended_sample demo_tone demo_keyshape demo_dit.inchar_endindex
          demo_dit.signal_buffer_period demo_dit.cw_risetime_samples
          (tick_position demo_dit 2)) ∧
    (get_audio_buffer demo_dit_overlap demo_tone demo_keyshape)[3]?
      = some (amended_sample demo_tone demo_keyshape demo_dit_overlap.inchar_endindex
          demo_dit_overlap.signal_buffer_period demo_dit_overlap.cw_risetime_samples
          (tick_position demo_dit_overlap 3)) :=
  ⟨Or.inl rfl, by decide, by decide,
    (get_audio_buffer_amended demo_dit demo_tone demo_keyshape (Or.inl rfl)
      (by decide) (by decide)).1,
    (get_audio_buffer_amended demo_dit demo_tone demo_keyshape (Or.inl rfl)
      (by decide) (by decide)).2 2 (by decide),
    (get_audio_buffer_amended demo_dit_overlap demo_tone demo_keyshape (Or.inl rfl)
      (by decide) (by decide)).2 3 (by decide)⟩
